import Mathlib

/-!
# BBSim: PON port state machine and ONU control API

A shallow embedding of `internal/bbsim/devices/pon.go` and
`internal/bbsim/api/onus_handler.go`, and a model of the VLAN tag functions of
`internal/bbsim/packetHandlers` that is checked against their tests.

Conventions of the embedding
* A Go `error` value is represented by its `Error()` text; `Option String` is a
  nilable `error` (`none` is `nil`).
* A `*fsm.FSM` of a PON port is represented by the name of its current state
  (what `Current()` returns).
* The `InternalState` machine of an ONU is built in `onu.go`, which is not part
  of the sources at hand.  It is a parameter (`OnuFsm`): any function that
  answers an event with the ONU afterwards and an optional error.
* Every call of `onu.InternalState.Event(..)` and every send on `onu.Channel`
  is recorded, in program order, in a log that the functions return.
* Logging statements have no effect on the state and are left out.
-/

namespace BBSim

/-! ## Data model -/

/-- Modelled from the spec: the `ControlledActivation` policy of the OLT
(`olt.go` is not among the sources); the four values named in section 3. -/
inductive ControlledActivation
  | Default
  | OnlyONU
  | OnlyPON
  | Both
  deriving DecidableEq, Repr

/-- The `openolt.SerialNumber` message: vendor bytes and vendor-specific bytes. -/
structure SerialNumber where
  VendorId : List Nat
  VendorSpecific : List Nat
  deriving DecidableEq, Repr

/-- The fields of `devices.Onu` that `pon.go` and `onus_handler.go` read.
`σ` is the representation of the ONU `InternalState` machine; `OperState` is
the current state name of the operational machine; `HwAddress` is kept as the
text that `HwAddress.String()` returns. -/
structure Onu (σ : Type) where
  ID : Nat
  PonPortID : Nat
  STag : Int
  CTag : Int
  PortNo : Nat
  HwAddress : String
  SerialNumber : SerialNumber
  OperState : String
  InternalState : σ

/-- The ONU `InternalState` machine as seen from its callers: `Current` is
`onu.InternalState.Current()`, `Event onu name` is
`onu.InternalState.Event(name)`: the ONU after the call (callbacks close over
the ONU and may change it) and the returned error. -/
structure OnuFsm (σ : Type) where
  Current : σ → String
  Event : Onu σ → String → Onu σ × Option String

/-- The struct `PonPort` of `pon.go`; the two machines are kept as their
current state names, the back-reference `Olt` is passed where it is read. -/
structure PonPort (σ : Type) where
  ID : Nat
  NumOnu : Nat
  Onus : List (Onu σ)
  PacketCount : Nat
  InternalState : String
  OperState : String
  PortType : String

/-- The fields of `devices.OltDevice` read by the code at hand. -/
structure OltDevice (σ : Type) where
  NumOnuPerPon : Nat
  ControlledActivation : ControlledActivation
  Pons : List (PonPort σ)

/-! ## The event/callback state machine engine -/

/-- One entry of `fsm.Events`: `{Name, Src, Dst}`. -/
structure EventDesc where
  Name : String
  Src : List String
  Dst : String
  deriving DecidableEq, Repr

/-- The `*fsm.Event` handed to a callback: event name, source and destination. -/
structure FsmEvent where
  Event : String
  Src : String
  Dst : String
  deriving DecidableEq, Repr

/-- One ONU event sent by a PON callback: the position of the ONU in
`ponPort.Onus` and the event name. -/
abbrev OnuEventLog := List (Nat × String)

/-- Modelled from the spec: the dispatch of `fsm.FSM.Event` (the vendored
state machine library is not among the sources).  An event is permitted from
the current state when the table has an entry of that name whose `Src` holds the
current state; the answer is then the entry's `Dst` (a later entry overrides an
earlier one for the same pair).  Otherwise the event is rejected with an error. -/
def fsmTransition (events : List EventDesc) (current event : String) : Except String String :=
  match events.reverse.find? (fun d => d.Name == event && d.Src.contains current) with
  | some d => .ok d.Dst
  | none =>
    if events.any (fun d => d.Name == event) then
      .error ("event " ++ event ++ " inappropriate in current state " ++ current)
    else
      .error ("event " ++ event ++ " does not exist")

/-- `onu.InternalState.Event(event)` on the ONU at position `i`, appended to
the log. -/
def sendEvent {σ : Type} (F : OnuFsm σ) (i : Nat) (event : String)
    (onu : Onu σ) (log : OnuEventLog) : Onu σ × OnuEventLog × Option String :=
  let r := F.Event onu event
  (r.1, log ++ [(i, event)], r.2)

/-! ## `pon.go`: callbacks of the PON `InternalState` machine -/

/-- Body of the loop of `enter_enabled` for `e.Src == "created"` (lines 68-76):
`initialize`, `continue` on error, then `discover`. -/
def enterEnabledFromCreatedBody {σ : Type} (F : OnuFsm σ) (i : Nat)
    (onu : Onu σ) (log : OnuEventLog) : Onu σ × OnuEventLog :=
  match sendEvent F i "initialize" onu log with
  | (onu1, log1, some _) => (onu1, log1)
  | (onu1, log1, none) =>
    match sendEvent F i "discover" onu1 log1 with
    | (onu2, log2, _) => (onu2, log2)

/-- Body of the loop of `enter_enabled` for `e.Src == "disabled"` (lines 79-93). -/
def enterEnabledFromDisabledBody {σ : Type} (F : OnuFsm σ) (i : Nat)
    (onu : Onu σ) (log : OnuEventLog) : Onu σ × OnuEventLog :=
  if F.Current onu.InternalState = "pon_disabled" then
    match sendEvent F i "discover" onu log with
    | (onu1, log1, _) => (onu1, log1)
  else if F.Current onu.InternalState = "disabled" then
    match sendEvent F i "initialize" onu log with
    | (onu1, log1, some _) => (onu1, log1)
    | (onu1, log1, none) =>
      match sendEvent F i "discover" onu1 log1 with
      | (onu2, log2, _) => (onu2, log2)
  else
    (onu, log)

/-- Body of the loop of `enter_disabled` (lines 97-104). -/
def enterDisabledBody {σ : Type} (F : OnuFsm σ) (i : Nat)
    (onu : Onu σ) (log : OnuEventLog) : Onu σ × OnuEventLog :=
  if F.Current onu.InternalState = "initialized" then
    (onu, log)
  else
    match sendEvent F i "pon_disabled" onu log with
    | (onu1, log1, _) => (onu1, log1)

/-- The loop `for _, onu := range ponPort.Onus { body }`: the ONUs are visited
in list order, `i` is the position of the head of the list. -/
def rangeOnus {σ : Type} (body : Nat → Onu σ → OnuEventLog → Onu σ × OnuEventLog) :
    Nat → List (Onu σ) → OnuEventLog → List (Onu σ) × OnuEventLog
  | _, [], log => ([], log)
  | i, onu :: rest, log =>
    let r := body i onu log
    let out := rangeOnus body (i + 1) rest r.2
    (r.1 :: out.1, out.2)

/-- The callback `enter_enabled` of the PON `InternalState` machine. -/
def enter_enabled {σ : Type} (F : OnuFsm σ) (policy : ControlledActivation)
    (e : FsmEvent) (onus : List (Onu σ)) : List (Onu σ) × OnuEventLog :=
  if e.Src = "created" then
    if policy = ControlledActivation.Default ∨ policy = ControlledActivation.OnlyPON then
      rangeOnus (enterEnabledFromCreatedBody F) 0 onus []
    else
      (onus, [])
  else if e.Src = "disabled" then
    rangeOnus (enterEnabledFromDisabledBody F) 0 onus []
  else
    (onus, [])

/-- The callback `enter_disabled` of the PON `InternalState` machine. -/
def enter_disabled {σ : Type} (F : OnuFsm σ) (_e : FsmEvent)
    (onus : List (Onu σ)) : List (Onu σ) × OnuEventLog :=
  rangeOnus (enterDisabledBody F) 0 onus []

/-- The `fsm.Events` table of the PON `InternalState` machine (lines 56-59). -/
def ponInternalStateEvents : List EventDesc :=
  [ ⟨"enable", ["created", "disabled"], "enabled"⟩,
    ⟨"disable", ["enabled"], "disabled"⟩ ]

/-- The `fsm.Callbacks` map of the PON `InternalState` machine (lines 60-106),
looked up by callback name; a name without an entry does nothing. -/
def ponInternalStateCallbacks {σ : Type} (F : OnuFsm σ) (policy : ControlledActivation)
    (name : String) (e : FsmEvent) (onus : List (Onu σ)) : List (Onu σ) × OnuEventLog :=
  if name = "enter_enabled" then enter_enabled F policy e onus
  else if name = "enter_disabled" then enter_disabled F e onus
  else (onus, [])

/-- `CreatePonPort(olt, id)`: the new port, both machines in their initial state. -/
def CreatePonPort {σ : Type} (olt : OltDevice σ) (id : Nat) : PonPort σ :=
  { ID := id
    NumOnu := olt.NumOnuPerPon
    Onus := []
    PacketCount := 0
    InternalState := "created"
    OperState := "down"
    PortType := "pon" }

/-- The result of `ponPort.InternalState.Event(..)`: the port afterwards, the
events sent to child ONUs, and the returned error. -/
structure PonEventResult (σ : Type) where
  pon : PonPort σ
  log : OnuEventLog
  err : Option String

/-- Modelled from the spec: `ponPort.InternalState.Event(event)`, the engine
(not among the sources) run on the table and callbacks of `CreatePonPort`.  A
rejected event changes nothing; an accepted one sets the state to the
destination and then runs the destination's `enter_` callback with the previous
state as `e.Src`; the callbacks of `pon.go` never cancel, so no error results. -/
def PonPort.InternalStateEvent {σ : Type} (F : OnuFsm σ) (policy : ControlledActivation)
    (pon : PonPort σ) (event : String) : PonEventResult σ :=
  match fsmTransition ponInternalStateEvents pon.InternalState event with
  | .error err => ⟨pon, [], some err⟩
  | .ok dst =>
    if pon.InternalState = dst then
      ⟨pon, [], some "no transition"⟩
    else
      let e : FsmEvent := ⟨event, pon.InternalState, dst⟩
      let r := ponInternalStateCallbacks F policy ("enter_" ++ dst) e pon.Onus
      ⟨{ pon with InternalState := dst, Onus := r.1 }, r.2, none⟩

/-! ## `onus_handler.go`: the ONU control API -/

/-- Modelled from the spec: the gRPC status code `OK` (section 6, response codes). -/
def codes.OK : Nat := 0

/-- Modelled from the spec: the gRPC status code `NotFound` (section 6). -/
def codes.NotFound : Nat := 5

/-- Modelled from the spec: the gRPC status code `FailedPrecondition` (section 6). -/
def codes.FailedPrecondition : Nat := 9

/-- The Go conversion `int32(x)`: the value modulo `2^32`, read as signed. -/
def int32 (x : Int) : Int :=
  (x + 2 ^ 31) % 2 ^ 32 - 2 ^ 31

/-- The message `bbsim.Response`; the default is Go's zero value. -/
structure Response where
  StatusCode : Int := 0
  Message : String := ""
  deriving DecidableEq, Repr

/-- The message `bbsim.ONU`, the snapshot of an ONU; the default is Go's zero value. -/
structure ONU where
  ID : Int := 0
  SerialNumber : String := ""
  OperState : String := ""
  InternalState : String := ""
  PonPortID : Int := 0
  STag : Int := 0
  CTag : Int := 0
  HwAddress : String := ""
  PortNo : Int := 0
  deriving DecidableEq, Repr

/-- The message `bbsim.ONURequest`. -/
structure ONURequest where
  SerialNumber : String
  deriving DecidableEq, Repr

/-- Modelled from the spec: the enumeration `bbsim.SubActionTypes` (the generated
protocol code is not among the sources): the three actions of section 4.5, and
any other number that arrives on the wire. -/
inductive SubActionTypes
  | JOIN
  | LEAVE
  | JOINV3
  | unrecognized (value : Int)
  deriving DecidableEq, Repr

/-- The message `bbsim.IgmpRequest`. -/
structure IgmpRequest where
  OnuReq : ONURequest
  SubActionVal : SubActionTypes
  deriving DecidableEq, Repr

/-- Modelled from the spec: the kinds of `devices.Message` (declared in a file
that is not among the sources), the variants listed in section 3. -/
inductive MessageType
  | OnuDiscIndication
  | OnuIndication
  | OMCI
  | OnuPacketOut
  | DyingGaspIndication
  | FlowUpdate
  | PonIndication
  deriving DecidableEq, Repr

/-- The struct `devices.DyingGaspIndicationMessage` as `ShutdownONU` fills it. -/
structure DyingGaspIndicationMessage where
  OnuID : Nat
  PonPortID : Nat
  Status : String
  deriving DecidableEq, Repr

/-- The struct `devices.Message` as `ShutdownONU` builds it. -/
structure Message where
  MsgType : MessageType
  Data : DyingGaspIndicationMessage
  deriving DecidableEq, Repr

/-- A pointer `*Onu` into the OLT: position of the PON in `olt.Pons` and of the
ONU in `pon.Onus`. -/
structure OnuRef where
  pon : Nat
  onu : Nat
  deriving DecidableEq, Repr

/-- What a handler does to the ONUs, in program order. -/
inductive Effect
  | chanSend (onu : OnuRef) (msg : Message)
  | fsmEvent (onu : OnuRef) (event : String)
  deriving DecidableEq, Repr

/-- The parts of package `devices` used by the handlers whose code is not among
the sources: the ONU `InternalState` machine, `Onu.Sn`, `OltDevice.FindOnuBySn`
(an error, or a pointer to the ONU) and `OltDevice.GetPonById`. -/
structure Devices (σ : Type) extends OnuFsm σ where
  Sn : Onu σ → String
  FindOnuBySn : OltDevice σ → String → Except String OnuRef
  GetPonById : OltDevice σ → Nat → Except String (PonPort σ)

/-- Dereference of a pointer `*Onu`; `none` for a pointer to nothing. -/
def OltDevice.onuAt {σ : Type} (olt : OltDevice σ) (ref : OnuRef) : Option (Onu σ) :=
  match olt.Pons.get? ref.pon with
  | none => none
  | some pon => pon.Onus.get? ref.onu

/-- Write through a pointer `*Onu`. -/
def OltDevice.setOnu {σ : Type} (olt : OltDevice σ) (ref : OnuRef) (onu : Onu σ) : OltDevice σ :=
  match olt.Pons.get? ref.pon with
  | none => olt
  | some pon => { olt with Pons := olt.Pons.set ref.pon { pon with Onus := pon.Onus.set ref.onu onu } }

/-- How a handler ends: it returns `(res, err)`, or it panics. -/
inductive Outcome (α : Type)
  | returned (res : α) (err : Option String)
  | panicked

/-- A run of a handler: the OLT afterwards, the effects on the ONUs in program
order, and how the handler ended. -/
structure Run (σ : Type) (α : Type) where
  olt : OltDevice σ
  trace : List Effect
  outcome : Outcome α

/-- The call `err.Error()` on a nilable `error`: on `nil` it is a nil
dereference, which panics (`none`). -/
def errorText (err : Option String) : Option String := err

/-- The call `onu.InternalState.Event(event)` through the pointer `ref`, appended
to the trace. -/
def Devices.sendEvent {σ : Type} (D : Devices σ) (ref : OnuRef) (event : String)
    (olt : OltDevice σ) (onu : Onu σ) (trace : List Effect) :
    OltDevice σ × Onu σ × List Effect × Option String :=
  let r := D.Event onu event
  (olt.setOnu ref r.1, r.1, trace ++ [Effect.fsmEvent ref event], r.2)

/-- The snapshot built by `GetONUs` and `GetONU` from an ONU. -/
def Devices.snapshot {σ : Type} (D : Devices σ) (o : Onu σ) : ONU :=
  { ID := int32 o.ID
    SerialNumber := D.Sn o
    OperState := o.OperState
    InternalState := D.Current o.InternalState
    PonPortID := int32 o.PonPortID
    STag := int32 o.STag
    CTag := int32 o.CTag
    HwAddress := o.HwAddress
    PortNo := int32 o.PortNo }

/-- The handler `GetONU`. -/
def GetONU {σ : Type} (D : Devices σ) (olt : OltDevice σ) (req : ONURequest) : Run σ ONU :=
  match D.FindOnuBySn olt req.SerialNumber with
  | .error err => ⟨olt, [], .returned {} (some err)⟩
  | .ok ref =>
    match olt.onuAt ref with
    | none => ⟨olt, [], .panicked⟩
    | some onu => ⟨olt, [], .returned (D.snapshot onu) none⟩

/-- The handler `ShutdownONU`. -/
def ShutdownONU {σ : Type} (D : Devices σ) (olt : OltDevice σ) (req : ONURequest) :
    Run σ Response :=
  let res : Response := {}
  match D.FindOnuBySn olt req.SerialNumber with
  | .error err =>
    ⟨olt, [], .returned { res with StatusCode := int32 codes.NotFound, Message := err } (some err)⟩
  | .ok ref =>
    match olt.onuAt ref with
    | none => ⟨olt, [], .panicked⟩
    | some onu =>
      let dyingGasp : Message :=
        { MsgType := MessageType.DyingGaspIndication
          Data := { OnuID := onu.ID, PonPortID := onu.PonPortID, Status := "on" } }
      let trace := [Effect.chanSend ref dyingGasp]
      match D.sendEvent ref "disable" olt onu trace with
      | (olt1, _, trace1, some err) =>
        ⟨olt1, trace1,
          .returned { res with StatusCode := int32 codes.FailedPrecondition, Message := err } (some err)⟩
      | (olt1, onu1, trace1, none) =>
        ⟨olt1, trace1,
          .returned { res with StatusCode := int32 codes.OK,
                               Message := "ONU " ++ D.Sn onu1 ++ " successfully shut down." } none⟩

/-- The handler `PoweronONU`. -/
def PoweronONU {σ : Type} (D : Devices σ) (olt : OltDevice σ) (req : ONURequest) :
    Run σ Response :=
  let res : Response := {}
  match D.FindOnuBySn olt req.SerialNumber with
  | .error err =>
    ⟨olt, [], .returned { res with StatusCode := int32 codes.NotFound, Message := err } (some err)⟩
  | .ok ref =>
    match olt.onuAt ref with
    | none => ⟨olt, [], .panicked⟩
    | some onu =>
      match D.GetPonById olt onu.PonPortID with
      | .error _ => ⟨olt, [], .panicked⟩
      | .ok pon =>
        if pon.InternalState ≠ "enabled" then
          let err := "PON port " ++ toString onu.PonPortID ++ " not enabled"
          ⟨olt, [],
            .returned { res with StatusCode := int32 codes.FailedPrecondition, Message := err } (some err)⟩
        else
          let afterInit : OltDevice σ × Onu σ × List Effect × Option String :=
            if D.Current onu.InternalState = "created" then
              D.sendEvent ref "initialize" olt onu []
            else
              (olt, onu, [], none)
          match afterInit with
          | (olt1, _, trace1, some err) =>
            ⟨olt1, trace1,
              .returned { res with StatusCode := int32 codes.FailedPrecondition, Message := err }
                (some err)⟩
          | (olt1, onu1, trace1, none) =>
            match D.sendEvent ref "discover" olt1 onu1 trace1 with
            | (olt2, _, trace2, some err) =>
              ⟨olt2, trace2,
                .returned { res with StatusCode := int32 codes.FailedPrecondition, Message := err }
                  (some err)⟩
            | (olt2, onu2, trace2, none) =>
              ⟨olt2, trace2,
                .returned { res with StatusCode := int32 codes.OK,
                                     Message := "ONU " ++ D.Sn onu2 ++ " successfully powered on." }
                  none⟩

/-- The `switch req.SubActionVal` of `ChangeIgmpState` (lines 206-214): the
event name, the empty string when no case matches. -/
def igmpEvent (action : SubActionTypes) : String :=
  match action with
  | .JOIN => "igmp_join_start"
  | .LEAVE => "igmp_leave"
  | .JOINV3 => "igmp_join_startv3"
  | .unrecognized _ => ""

/-- The handler `ChangeIgmpState`.  On the branch where the ONU was found the
variable `err` of line 198 is `nil`; line 223 calls `err.Error()` on it. -/
def ChangeIgmpState {σ : Type} (D : Devices σ) (olt : OltDevice σ) (req : IgmpRequest) :
    Run σ Response :=
  let res : Response := {}
  match D.FindOnuBySn olt req.OnuReq.SerialNumber with
  | .error err =>
    ⟨olt, [], .returned { res with StatusCode := int32 codes.NotFound, Message := err } (some err)⟩
  | .ok ref =>
    let err : Option String := none
    match olt.onuAt ref with
    | none => ⟨olt, [], .panicked⟩
    | some onu =>
      let event := igmpEvent req.SubActionVal
      match D.sendEvent ref event olt onu [] with
      | (olt1, _, trace1, some igmpErr) =>
        match errorText err with
        | none => ⟨olt1, trace1, .panicked⟩
        | some text =>
          ⟨olt1, trace1,
            .returned { res with StatusCode := int32 codes.FailedPrecondition, Message := text }
              (some igmpErr)⟩
      | (olt1, _, trace1, none) => ⟨olt1, trace1, .returned res none⟩

/-- The common shape of `RestartEapol` and `RestartDhcp`: one event, and the
success message built from `onu.Sn()`. -/
def restartHandler {σ : Type} (D : Devices σ) (event : String) (okMessage : String → String)
    (olt : OltDevice σ) (req : ONURequest) : Run σ Response :=
  let res : Response := {}
  match D.FindOnuBySn olt req.SerialNumber with
  | .error err =>
    ⟨olt, [], .returned { res with StatusCode := int32 codes.NotFound, Message := err } (some err)⟩
  | .ok ref =>
    match olt.onuAt ref with
    | none => ⟨olt, [], .panicked⟩
    | some onu =>
      match D.sendEvent ref event olt onu [] with
      | (olt1, _, trace1, some err) =>
        ⟨olt1, trace1,
          .returned { res with StatusCode := int32 codes.FailedPrecondition, Message := err } (some err)⟩
      | (olt1, onu1, trace1, none) =>
        ⟨olt1, trace1,
          .returned { res with StatusCode := int32 codes.OK, Message := okMessage (D.Sn onu1) } none⟩

/-- The handler `RestartEapol`. -/
def RestartEapol {σ : Type} (D : Devices σ) (olt : OltDevice σ) (req : ONURequest) :
    Run σ Response :=
  restartHandler D "start_auth" (fun sn => "Authentication restarted for ONU " ++ sn ++ ".") olt req

/-- The handler `RestartDhcp`. -/
def RestartDhcp {σ : Type} (D : Devices σ) (olt : OltDevice σ) (req : ONURequest) :
    Run σ Response :=
  restartHandler D "start_dhcp" (fun sn => "DHCP restarted for ONU " ++ sn ++ ".") olt req

/-! ## A concrete ONU machine, for evaluating the definitions -/

/-- Modelled from the spec: a fragment of the ONU `InternalState` table of
section 4.1 (`onu.go` is not among the sources). -/
def exampleOnuEvents : List EventDesc :=
  [ ⟨"initialize", ["created", "disabled"], "initialized"⟩,
    ⟨"discover", ["initialized", "pon_disabled"], "discovered"⟩,
    ⟨"enable", ["discovered"], "enabled"⟩,
    ⟨"disable", ["enabled", "auth_started", "dhcp_started", "dhcp_ack_received"], "disabled"⟩,
    ⟨"pon_disabled",
      ["created", "initialized", "discovered", "enabled", "disabled", "auth_started",
       "dhcp_started", "dhcp_ack_received"], "pon_disabled"⟩,
    ⟨"start_auth", ["enabled"], "auth_started"⟩,
    ⟨"igmp_join_start", ["dhcp_ack_received"], "igmp_join_started"⟩,
    ⟨"igmp_join_startv3", ["dhcp_ack_received"], "igmp_join_startedv3"⟩,
    ⟨"igmp_leave", ["dhcp_ack_received"], "igmp_left"⟩ ]

/-- Modelled from the spec: an ONU machine over `exampleOnuEvents`; a rejected
event leaves the ONU as it is (section 4.1, tie-breaks and policies). -/
def exampleOnuFsm : OnuFsm String where
  Current := fun s => s
  Event := fun onu event =>
    match fsmTransition exampleOnuEvents onu.InternalState event with
    | .ok dst => ({ onu with InternalState := dst }, none)
    | .error err => (onu, some err)

/-- An ONU of the example machine in the given state. -/
def exampleOnu (id pon : Nat) (state : String) : Onu String :=
  { ID := id, PonPortID := pon, STag := 900, CTag := 900 + id, PortNo := 0,
    HwAddress := "2e:60:70:13:00:01", SerialNumber := ⟨[66, 66, 83, 77], [0, 0, 0, id]⟩,
    OperState := "down", InternalState := state }

/-- The PON with ID 0, in the given state, holding the given ONUs. -/
def examplePon (ponState : String) (onus : List (Onu String)) : PonPort String :=
  { ID := 0, NumOnu := onus.length, Onus := onus, PacketCount := 0,
    InternalState := ponState, OperState := "down", PortType := "pon" }

/-- An OLT with the one PON `examplePon`. -/
def exampleOlt (ponState : String) (onus : List (Onu String)) : OltDevice String :=
  { NumOnuPerPon := onus.length
    ControlledActivation := ControlledActivation.Default
    Pons := [examplePon ponState onus] }

/-- Modelled from the spec: the missing parts of package `devices` for the
example: `FindOnuBySn` finds the serial number "BBSM00000001" at the first ONU
of the first PON and nothing else; `GetPonById` searches `olt.Pons` by ID. -/
def exampleDevices : Devices String where
  toOnuFsm := exampleOnuFsm
  Sn := fun _ => "BBSM00000001"
  FindOnuBySn := fun _ sn =>
    if sn = "BBSM00000001" then .ok ⟨0, 0⟩ else .error ("cannot-find-onu-by-serial-number-" ++ sn)
  GetPonById := fun olt id =>
    match olt.Pons.find? (fun p => p.ID == id) with
    | some p => .ok p
    | none => .error ("Cannot find PonPort with id " ++ toString id ++ " in OLT")

/-! ## `pon.go`: the PON `OperState` machine and the queries on a port -/

/-- The `fsm.Events` table of the PON `OperState` machine (lines 111-114). -/
def ponOperStateEvents : List EventDesc :=
  [ ⟨"enable", ["down"], "up"⟩,
    ⟨"disable", ["up"], "down"⟩ ]

/-- The calls of `olt.sendPonIndication`, in program order: the PON ID passed. -/
abbrev PonIndicationLog := List Nat

/-- The callback `enter_up` of the PON `OperState` machine: one call of
`olt.sendPonIndication(ponPort.ID)`. -/
def enter_up (ponPortID : Nat) (_e : FsmEvent) (log : PonIndicationLog) : PonIndicationLog :=
  log ++ [ponPortID]

/-- The callback `enter_down` of the PON `OperState` machine: one call of
`olt.sendPonIndication(ponPort.ID)`. -/
def enter_down (ponPortID : Nat) (_e : FsmEvent) (log : PonIndicationLog) : PonIndicationLog :=
  log ++ [ponPortID]

/-- The `fsm.Callbacks` map of the PON `OperState` machine (lines 115-128),
looked up by callback name; a name without an entry does nothing. -/
def ponOperStateCallbacks (ponPortID : Nat) (name : String) (e : FsmEvent)
    (log : PonIndicationLog) : PonIndicationLog :=
  if name = "enter_up" then enter_up ponPortID e log
  else if name = "enter_down" then enter_down ponPortID e log
  else log

/-- The result of `ponPort.OperState.Event(..)`: the port afterwards, the calls
of `sendPonIndication`, and the returned error. -/
structure PonOperResult (σ : Type) where
  pon : PonPort σ
  indications : PonIndicationLog
  err : Option String

/-- Modelled from the spec: `ponPort.OperState.Event(event)`, the engine (not
among the sources) run on the table and callbacks of `CreatePonPort`, in the
same way as `PonPort.InternalStateEvent`. -/
def PonPort.OperStateEvent {σ : Type} (pon : PonPort σ) (event : String) : PonOperResult σ :=
  match fsmTransition ponOperStateEvents pon.OperState event with
  | .error err => ⟨pon, [], some err⟩
  | .ok dst =>
    if pon.OperState = dst then
      ⟨pon, [], some "no transition"⟩
    else
      let e : FsmEvent := ⟨event, pon.OperState, dst⟩
      ⟨{ pon with OperState := dst }, ponOperStateCallbacks pon.ID ("enter_" ++ dst) e [], none⟩

/-- The loop of `GetOnuBySn` (lines 134-138): the first ONU, from position `i`
on, whose `VendorSpecific` bytes are `bytes.Equal` to those of `sn`. -/
def getOnuBySnLoop {σ : Type} (sn : SerialNumber) : Nat → List (Onu σ) → Option (Nat × Onu σ)
  | _, [] => none
  | i, onu :: rest =>
    if onu.SerialNumber.VendorSpecific = sn.VendorSpecific then some (i, onu)
    else getOnuBySnLoop sn (i + 1) rest

/-- The method `PonPort.GetOnuBySn`: the pointer to the ONU (its position in
`p.Onus`, with the ONU it points to) or an error.  `render` is the text that
`%d` gives for the serial number message, which depends on generated code that
is not among the sources. -/
def PonPort.GetOnuBySn {σ : Type} (render : SerialNumber → String) (p : PonPort σ)
    (sn : SerialNumber) : Except String (Nat × Onu σ) :=
  match getOnuBySnLoop sn 0 p.Onus with
  | some found => .ok found
  | none =>
    .error ("Cannot find Onu with serial number " ++ render sn ++ " in PonPort " ++ toString p.ID)

/-- The loop of `GetNumOfActiveOnus` (lines 154-159); `count` is a `uint32`. -/
def getNumOfActiveOnusLoop {σ : Type} (F : OnuFsm σ) : List (Onu σ) → Nat → Nat
  | [], count => count
  | onu :: rest, count =>
    if F.Current onu.InternalState = "initialized" ∨ F.Current onu.InternalState = "created" ∨
        F.Current onu.InternalState = "disabled" then
      getNumOfActiveOnusLoop F rest count
    else
      getNumOfActiveOnusLoop F rest ((count + 1) % 2 ^ 32)

/-- The method `PonPort.GetNumOfActiveOnus`. -/
def PonPort.GetNumOfActiveOnus {σ : Type} (F : OnuFsm σ) (p : PonPort σ) : Nat :=
  getNumOfActiveOnusLoop F p.Onus 0

/-! ## `onus_handler.go`: `GetONUs` -/

/-- The message `bbsim.ONUs`. -/
structure ONUs where
  Items : List ONU
  deriving DecidableEq, Repr

/-- The inner loop of `GetONUs` (lines 36-49): one snapshot appended per ONU. -/
def getONUsOfPon {σ : Type} (D : Devices σ) : List (Onu σ) → ONUs → ONUs
  | [], onus => onus
  | o :: rest, onus => getONUsOfPon D rest { onus with Items := onus.Items ++ [D.snapshot o] }

/-- The outer loop of `GetONUs` (lines 35-50). -/
def getONUsOfPons {σ : Type} (D : Devices σ) : List (PonPort σ) → ONUs → ONUs
  | [], onus => onus
  | pon :: rest, onus => getONUsOfPons D rest (getONUsOfPon D pon.Onus onus)

/-- The handler `GetONUs`. -/
def GetONUs {σ : Type} (D : Devices σ) (olt : OltDevice σ) : Run σ ONUs :=
  ⟨olt, [], .returned (getONUsOfPons D olt.Pons { Items := [] }) none⟩

/-! ## Package `packetHandlers`: VLAN tags

Only the tests of this package (`packet_tags_test.go`) are among the sources;
the functions are modelled from section 4.6 of the spec, in the vocabulary of
the tests (an Ethernet layer, a Dot1Q layer, a payload). -/

/-- Modelled from the spec: an Ethernet frame as the tag functions see it: the
two addresses, the EtherType, and the bytes after the Ethernet header. -/
structure Frame where
  DstMAC : List Nat
  SrcMAC : List Nat
  EthernetType : Nat
  Payload : List Nat
  deriving DecidableEq, Repr

/-- Modelled from the spec: an 802.1Q tag read from a frame: the 12-bit
`VLANIdentifier`, the EtherType that follows it (`Type` in the tests) and the
bytes after the tag. -/
structure Dot1Q where
  VLANIdentifier : Nat
  EtherType : Nat
  Payload : List Nat
  deriving DecidableEq, Repr

/-- Modelled from the spec: a frame that is built anew is filled with zero
bytes up to the minimum Ethernet length of 60 bytes, 46 after the header; this
is the reading of trailing bytes that `TestPopSingleTag` observes (the payload
bytes 10, 20 read as a tag give the VLAN 2580). -/
def padPayload (payload : List Nat) : List Nat :=
  payload ++ List.replicate (46 - payload.length) 0

/-- Modelled from the spec: the frame the tests build from an Ethernet layer and
a payload. -/
def newFrame (dst src : List Nat) (etherType : Nat) (payload : List Nat) : Frame :=
  { DstMAC := dst, SrcMAC := src, EthernetType := etherType, Payload := padPayload payload }

/-- Modelled from the spec: the four bytes of an 802.1Q tag with the given VLAN
(12 bits; priority and DEI bits 0) and inner EtherType. -/
def dot1qBytes (vlan etherType : Nat) : List Nat :=
  [vlan % 4096 / 256, vlan % 256, etherType / 256 % 256, etherType % 256]

/-- Modelled from the spec: the outermost 802.1Q tag of a frame: present when
the EtherType is 0x8100 and four bytes follow; otherwise the error
`no-dot1q-layer-in-packet`. -/
def getDot1QLayer (pkt : Frame) : Except String Dot1Q :=
  if pkt.EthernetType = 0x8100 then
    match pkt.Payload with
    | b0 :: b1 :: b2 :: b3 :: rest =>
      .ok { VLANIdentifier := (b0 * 256 + b1) % 4096, EtherType := b2 * 256 + b3, Payload := rest }
    | _ => .error "no-dot1q-layer-in-packet"
  else
    .error "no-dot1q-layer-in-packet"

/-- Modelled from the spec: `PushSingleTag(vlan, frame)`: insert an 802.1Q tag
with `VLANIdentifier = vlan`, inheriting the inner EtherType; return the new
frame. -/
def PushSingleTag (tag : Nat) (pkt : Frame) : Except String Frame :=
  .ok (newFrame pkt.DstMAC pkt.SrcMAC 0x8100 (dot1qBytes tag pkt.EthernetType ++ pkt.Payload))

/-- Modelled from the spec: `PushDoubleTag(sTag, cTag, frame)`: two single
pushes such that the outermost tag equals `sTag`, as the spec says and
`TestPushDoubleTag` checks: `cTag` is pushed first and `sTag` on top of it.
(The spec writes the composition as `PushSingleTag(cTag, PushSingleTag(sTag,
frame))`; read literally that would leave `cTag` outermost, against the same
sentence and the test.) -/
def PushDoubleTag (stag ctag : Nat) (pkt : Frame) : Except String Frame :=
  match PushSingleTag ctag pkt with
  | .error err => .error err
  | .ok singleTaggedPkt => PushSingleTag stag singleTaggedPkt

/-- Modelled from the spec: `PopSingleTag(frame)`: remove the outermost 802.1Q
tag; error if no tag is present. -/
def PopSingleTag (pkt : Frame) : Except String Frame :=
  match getDot1QLayer pkt with
  | .error err => .error err
  | .ok layer => .ok (newFrame pkt.DstMAC pkt.SrcMAC layer.EtherType layer.Payload)

/-- Modelled from the spec: `PopDoubleTag(frame)`: remove the two outermost tags. -/
def PopDoubleTag (pkt : Frame) : Except String Frame :=
  match PopSingleTag pkt with
  | .error err => .error err
  | .ok packet => PopSingleTag packet

/-- Modelled from the spec: `GetVlanTag(frame)`: the `VLANIdentifier` of the
outermost tag, or the error `no-dot1q-layer-in-packet`. -/
def GetVlanTag (pkt : Frame) : Except String Nat :=
  match getDot1QLayer pkt with
  | .error err => .error err
  | .ok dot1q => .ok dot1q.VLANIdentifier

/-- The frame of the tests: payload 10, 20, 30 under an Ethernet layer with
EtherType 0x8100. -/
def testFrame : Frame :=
  newFrame [0xff, 0xff, 0xff, 0xff, 0xff, 0xff] [0xff, 0xff, 0xff, 0xff, 1, 1] 0x8100 [10, 20, 30]

/-- The frame of `TestPopSingleTag` and `TestPopDoubleTag`: as `testFrame`, with
a Dot1Q layer (`Type` 0x8100, VLAN 111) before the payload. -/
def testTaggedFrame : Frame :=
  newFrame [0xff, 0xff, 0xff, 0xff, 0xff, 0xff] [0xff, 0xff, 0xff, 0xff, 1, 1] 0x8100
    (dot1qBytes 111 0x8100 ++ [10, 20, 30])

/-! ## Lemmas on the loop over the ONUs of a port -/

/-- A loop whose body maps the ONU by `f` and appends the events `g onu` for its
position yields the mapped list and, appended to the log, the events of every
ONU in list order. -/
theorem rangeOnus_eq {σ : Type} (body : Nat → Onu σ → OnuEventLog → Onu σ × OnuEventLog)
    (f : Onu σ → Onu σ) (g : Onu σ → List String)
    (hbody : ∀ i onu log, body i onu log = (f onu, log ++ (g onu).map (Prod.mk i)))
    (onus : List (Onu σ)) :
    ∀ (i : Nat) (log : OnuEventLog),
      rangeOnus body i onus log =
        (onus.map f, log ++ (onus.enumFrom i).flatMap (fun p => (g p.2).map (Prod.mk p.1))) := by
  induction onus with
  | nil => intro i log; simp [rangeOnus]
  | cons onu rest ih =>
    intro i log
    simp [rangeOnus, hbody, ih, List.enumFrom_cons, List.append_assoc]

/-- The loop body for `e.Src == "created"` in closed form. -/
theorem enterEnabledFromCreatedBody_eq {σ : Type} (F : OnuFsm σ) (i : Nat) (onu : Onu σ)
    (log : OnuEventLog) :
    enterEnabledFromCreatedBody F i onu log =
      ((if (F.Event onu "initialize").2 = none then
          (F.Event (F.Event onu "initialize").1 "discover").1
        else (F.Event onu "initialize").1),
       log ++ (if (F.Event onu "initialize").2 = none then ["initialize", "discover"]
               else ["initialize"]).map (Prod.mk i)) := by
  unfold enterEnabledFromCreatedBody sendEvent
  cases h : (F.Event onu "initialize").2 <;> simp [h]

/-- The loop body for `e.Src == "disabled"` in closed form. -/
theorem enterEnabledFromDisabledBody_eq {σ : Type} (F : OnuFsm σ) (i : Nat) (onu : Onu σ)
    (log : OnuEventLog) :
    enterEnabledFromDisabledBody F i onu log =
      ((if F.Current onu.InternalState = "pon_disabled" then (F.Event onu "discover").1
        else if F.Current onu.InternalState = "disabled" then
          (if (F.Event onu "initialize").2 = none then
             (F.Event (F.Event onu "initialize").1 "discover").1
           else (F.Event onu "initialize").1)
        else onu),
       log ++ (if F.Current onu.InternalState = "pon_disabled" then ["discover"]
               else if F.Current onu.InternalState = "disabled" then
                 (if (F.Event onu "initialize").2 = none then ["initialize", "discover"]
                  else ["initialize"])
               else []).map (Prod.mk i)) := by
  unfold enterEnabledFromDisabledBody sendEvent
  by_cases h1 : F.Current onu.InternalState = "pon_disabled"
  · simp [h1]
  · by_cases h2 : F.Current onu.InternalState = "disabled"
    · cases h : (F.Event onu "initialize").2 <;> simp [h1, h2, h]
    · simp [h1, h2]

/-- The loop body of `enter_disabled` in closed form. -/
theorem enterDisabledBody_eq {σ : Type} (F : OnuFsm σ) (i : Nat) (onu : Onu σ)
    (log : OnuEventLog) :
    enterDisabledBody F i onu log =
      ((if F.Current onu.InternalState = "initialized" then onu
        else (F.Event onu "pon_disabled").1),
       log ++ (if F.Current onu.InternalState = "initialized" then []
               else ["pon_disabled"]).map (Prod.mk i)) := by
  unfold enterDisabledBody sendEvent
  by_cases h1 : F.Current onu.InternalState = "initialized" <;> simp [h1]

/-! ## The PON `InternalState` machine -/

/-- C1: the PON `InternalState` machine built by `CreatePonPort` starts in
`created`, and for every port, every list of child ONUs and every behaviour of
the child ONU machines: `enable` from `created` or `disabled` returns no error
and leaves the port in `enabled` (having run `enter_enabled` with the previous
state as source); `disable` from `enabled` returns no error and leaves the port
in `disabled` (having run `enter_disabled`); every other pair of state and event
returns an error, leaves the port as it was and sends no event to a child ONU. -/
theorem pon_internal_state_machine {σ : Type} (F : OnuFsm σ) (policy : ControlledActivation)
    (olt : OltDevice σ) (id : Nat) (pon : PonPort σ) (event : String) :
    (CreatePonPort olt id).InternalState = "created" ∧
    (if event = "enable" ∧ (pon.InternalState = "created" ∨ pon.InternalState = "disabled") then
      (pon.InternalStateEvent F policy event).err = none ∧
      (pon.InternalStateEvent F policy event).pon.InternalState = "enabled" ∧
      (pon.InternalStateEvent F policy event).pon.Onus =
        (enter_enabled F policy ⟨"enable", pon.InternalState, "enabled"⟩ pon.Onus).1 ∧
      (pon.InternalStateEvent F policy event).log =
        (enter_enabled F policy ⟨"enable", pon.InternalState, "enabled"⟩ pon.Onus).2
    else if event = "disable" ∧ pon.InternalState = "enabled" then
      (pon.InternalStateEvent F policy event).err = none ∧
      (pon.InternalStateEvent F policy event).pon.InternalState = "disabled" ∧
      (pon.InternalStateEvent F policy event).pon.Onus =
        (enter_disabled F ⟨"disable", pon.InternalState, "disabled"⟩ pon.Onus).1 ∧
      (pon.InternalStateEvent F policy event).log =
        (enter_disabled F ⟨"disable", pon.InternalState, "disabled"⟩ pon.Onus).2
    else
      (pon.InternalStateEvent F policy event).err ≠ none ∧
      (pon.InternalStateEvent F policy event).pon = pon ∧
      (pon.InternalStateEvent F policy event).log = []) := by
  refine ⟨rfl, ?_⟩
  by_cases he : event = "enable"
  · subst he
    by_cases h1 : pon.InternalState = "created"
    · simp [PonPort.InternalStateEvent, fsmTransition, ponInternalStateEvents,
        ponInternalStateCallbacks, h1]
    · by_cases h2 : pon.InternalState = "disabled"
      · simp [PonPort.InternalStateEvent, fsmTransition, ponInternalStateEvents,
          ponInternalStateCallbacks, h2]
      · simp [PonPort.InternalStateEvent, fsmTransition, ponInternalStateEvents, h1, h2]
  · by_cases hd : event = "disable"
    · subst hd
      by_cases h3 : pon.InternalState = "enabled"
      · simp [PonPort.InternalStateEvent, fsmTransition, ponInternalStateEvents,
          ponInternalStateCallbacks, h3]
      · simp [PonPort.InternalStateEvent, fsmTransition, ponInternalStateEvents, h3]
    · have he2 : ¬ ("enable" = event) := fun h => he h.symm
      have hd2 : ¬ ("disable" = event) := fun h => hd h.symm
      simp [PonPort.InternalStateEvent, fsmTransition, ponInternalStateEvents, he, hd, he2, hd2]

/-- C2: when `enter_enabled` runs with source `created`: under the policy
`Default` or `OnlyPON`, every child ONU, in list order, is sent `initialize`
and, exactly when that was accepted, `discover` next; a rejection at one ONU
changes nothing for the others.  Under `OnlyONU` or `Both` no event is sent and
the ONUs are as before. -/
theorem enter_enabled_from_created {σ : Type} (F : OnuFsm σ) (policy : ControlledActivation)
    (e : FsmEvent) (onus : List (Onu σ)) (hsrc : e.Src = "created") :
    ((policy = ControlledActivation.Default ∨ policy = ControlledActivation.OnlyPON) →
      (enter_enabled F policy e onus).2 =
        onus.enum.flatMap (fun p =>
          (if (F.Event p.2 "initialize").2 = none then ["initialize", "discover"]
           else ["initialize"]).map (Prod.mk p.1)) ∧
      (enter_enabled F policy e onus).1 =
        onus.map (fun o =>
          if (F.Event o "initialize").2 = none then
            (F.Event (F.Event o "initialize").1 "discover").1
          else (F.Event o "initialize").1)) ∧
    ((policy = ControlledActivation.OnlyONU ∨ policy = ControlledActivation.Both) →
      (enter_enabled F policy e onus).2 = [] ∧ (enter_enabled F policy e onus).1 = onus) := by
  constructor
  · intro hp
    have h := rangeOnus_eq (enterEnabledFromCreatedBody F) _ _
      (enterEnabledFromCreatedBody_eq F) onus 0 []
    simp only [enter_enabled, hsrc, hp, if_true, h, List.nil_append, List.enum]
    exact ⟨trivial, trivial⟩
  · intro hp
    have hn : ¬ (policy = ControlledActivation.Default ∨ policy = ControlledActivation.OnlyPON) := by
      rcases hp with hp | hp <;> subst hp <;> decide
    simp [enter_enabled, hsrc, hn]

/-- Witness of C2 on two ONUs, the first in `created`, the second in `enabled`
(which rejects `initialize`), under the policy `Default`. -/
theorem enter_enabled_from_created_witness :
    (⟨"enable", "created", "enabled"⟩ : FsmEvent).Src = "created" ∧
    (enter_enabled exampleOnuFsm ControlledActivation.Default ⟨"enable", "created", "enabled"⟩
      [exampleOnu 1 0 "created", exampleOnu 2 0 "enabled"]).2 =
      [(0, "initialize"), (0, "discover"), (1, "initialize")] := by
  refine ⟨rfl, ?_⟩
  rw [((enter_enabled_from_created exampleOnuFsm ControlledActivation.Default
    ⟨"enable", "created", "enabled"⟩ [exampleOnu 1 0 "created", exampleOnu 2 0 "enabled"] rfl).1
    (Or.inl rfl)).1]
  decide

/-- C3: when `enter_enabled` runs with source `disabled`, whatever the policy,
every child ONU, in list order: in state `pon_disabled` it is sent exactly
`discover`; in state `disabled` it is sent `initialize` and, exactly when that
was accepted, `discover`; in any other state it is sent nothing and is left as
it was. -/
theorem enter_enabled_from_disabled {σ : Type} (F : OnuFsm σ) (policy : ControlledActivation)
    (e : FsmEvent) (onus : List (Onu σ)) (hsrc : e.Src = "disabled") :
    (enter_enabled F policy e onus).2 =
      onus.enum.flatMap (fun p =>
        (if F.Current p.2.InternalState = "pon_disabled" then ["discover"]
         else if F.Current p.2.InternalState = "disabled" then
           (if (F.Event p.2 "initialize").2 = none then ["initialize", "discover"]
            else ["initialize"])
         else []).map (Prod.mk p.1)) ∧
    (enter_enabled F policy e onus).1 =
      onus.map (fun o =>
        if F.Current o.InternalState = "pon_disabled" then (F.Event o "discover").1
        else if F.Current o.InternalState = "disabled" then
          (if (F.Event o "initialize").2 = none then
             (F.Event (F.Event o "initialize").1 "discover").1
           else (F.Event o "initialize").1)
        else o) := by
  have h := rangeOnus_eq (enterEnabledFromDisabledBody F) _ _
    (enterEnabledFromDisabledBody_eq F) onus 0 []
  have hne : ¬ ("disabled" = "created") := by decide
  simp only [enter_enabled, hsrc, hne, if_true, if_false, h, List.nil_append, List.enum]
  exact ⟨trivial, trivial⟩

/-- Witness of C3 on three ONUs in `pon_disabled`, `disabled` and `enabled`,
under the policy `OnlyONU`. -/
theorem enter_enabled_from_disabled_witness :
    (⟨"enable", "disabled", "enabled"⟩ : FsmEvent).Src = "disabled" ∧
    (enter_enabled exampleOnuFsm ControlledActivation.OnlyONU ⟨"enable", "disabled", "enabled"⟩
      [exampleOnu 1 0 "pon_disabled", exampleOnu 2 0 "disabled", exampleOnu 3 0 "enabled"]).2 =
      [(0, "discover"), (1, "initialize"), (1, "discover")] := by
  refine ⟨rfl, ?_⟩
  rw [(enter_enabled_from_disabled exampleOnuFsm ControlledActivation.OnlyONU
    ⟨"enable", "disabled", "enabled"⟩
    [exampleOnu 1 0 "pon_disabled", exampleOnu 2 0 "disabled", exampleOnu 3 0 "enabled"] rfl).1]
  decide

/-- C4: when `enter_disabled` runs, every child ONU whose state is not
`initialized` is sent exactly one `pon_disabled`, in list order and whatever
the other ONUs answered; every child ONU in `initialized` is sent nothing and
is left as it was. -/
theorem enter_disabled_cascade {σ : Type} (F : OnuFsm σ) (e : FsmEvent) (onus : List (Onu σ)) :
    (enter_disabled F e onus).2 =
      onus.enum.flatMap (fun p =>
        (if F.Current p.2.InternalState = "initialized" then []
         else ["pon_disabled"]).map (Prod.mk p.1)) ∧
    (enter_disabled F e onus).1 =
      onus.map (fun o =>
        if F.Current o.InternalState = "initialized" then o
        else (F.Event o "pon_disabled").1) := by
  have h := rangeOnus_eq (enterDisabledBody F) _ _ (enterDisabledBody_eq F) onus 0 []
  simp only [enter_disabled, h, List.nil_append, List.enum]
  exact ⟨trivial, trivial⟩

/-! ## The ONU control API -/

/-- The status codes as the handlers store them: `int32` leaves them unchanged. -/
theorem int32_codes :
    int32 codes.OK = 0 ∧ int32 codes.NotFound = 5 ∧ int32 codes.FailedPrecondition = 9 := by
  decide

/-- C5: for an ONU found by serial number, `ShutdownONU` first puts one
`DyingGaspIndication` carrying the ONU's `ID` and `PonPortID` on the ONU's
channel and then sends `disable` to its `InternalState`, and nothing else; if
`disable` is accepted the response has code `OK` (0) and the error is nil, if it
is rejected the response has code `FailedPrecondition` (9), the machine's error
as message, and that error is returned. -/
theorem ShutdownONU_found {σ : Type} (D : Devices σ) (olt : OltDevice σ) (req : ONURequest)
    (ref : OnuRef) (onu : Onu σ)
    (hfind : D.FindOnuBySn olt req.SerialNumber = .ok ref) (hat : olt.onuAt ref = some onu) :
    (ShutdownONU D olt req).trace =
      [ Effect.chanSend ref
          ⟨MessageType.DyingGaspIndication, ⟨onu.ID, onu.PonPortID, "on"⟩⟩,
        Effect.fsmEvent ref "disable" ] ∧
    (ShutdownONU D olt req).olt = olt.setOnu ref (D.Event onu "disable").1 ∧
    (ShutdownONU D olt req).outcome =
      (match (D.Event onu "disable").2 with
       | none =>
         .returned ⟨0, "ONU " ++ D.Sn (D.Event onu "disable").1 ++ " successfully shut down."⟩ none
       | some err => .returned ⟨9, err⟩ (some err)) := by
  unfold ShutdownONU Devices.sendEvent
  simp only [hfind, hat]
  cases h : (D.Event onu "disable").2 <;> simp [h, int32_codes]

/-- Witness of C5: the ONU "BBSM00000001" in state `enabled` is shut down. -/
theorem ShutdownONU_found_witness :
    (ShutdownONU exampleDevices (exampleOlt "enabled" [exampleOnu 1 0 "enabled"])
      ⟨"BBSM00000001"⟩).trace =
      [ Effect.chanSend ⟨0, 0⟩ ⟨MessageType.DyingGaspIndication, ⟨1, 0, "on"⟩⟩,
        Effect.fsmEvent ⟨0, 0⟩ "disable" ] :=
  (ShutdownONU_found exampleDevices (exampleOlt "enabled" [exampleOnu 1 0 "enabled"])
    ⟨"BBSM00000001"⟩ ⟨0, 0⟩ (exampleOnu 1 0 "enabled") rfl rfl).1

/-- C6: for an ONU found by serial number whose parent PON is not in `enabled`,
`PoweronONU` returns code `FailedPrecondition` (9) with the message
"PON port N not enabled" (N the ONU's `PonPortID` in decimal) and that text as
error; it sends no event and leaves the OLT, the ONU included, as it was. -/
theorem PoweronONU_pon_not_enabled {σ : Type} (D : Devices σ) (olt : OltDevice σ)
    (req : ONURequest) (ref : OnuRef) (onu : Onu σ) (pon : PonPort σ)
    (hfind : D.FindOnuBySn olt req.SerialNumber = .ok ref) (hat : olt.onuAt ref = some onu)
    (hpon : D.GetPonById olt onu.PonPortID = .ok pon) (hstate : pon.InternalState ≠ "enabled") :
    (PoweronONU D olt req).trace = [] ∧
    (PoweronONU D olt req).olt = olt ∧
    (PoweronONU D olt req).outcome =
      .returned ⟨9, "PON port " ++ toString onu.PonPortID ++ " not enabled"⟩
        (some ("PON port " ++ toString onu.PonPortID ++ " not enabled")) := by
  unfold PoweronONU
  simp [hfind, hat, hpon, hstate, int32_codes]

/-- Witness of C6: the scenario of the spec, an ONU on the disabled PON 0. -/
theorem PoweronONU_pon_not_enabled_witness :
    (PoweronONU exampleDevices (exampleOlt "disabled" [exampleOnu 1 0 "pon_disabled"])
      ⟨"BBSM00000001"⟩).outcome =
      .returned ⟨9, "PON port 0 not enabled"⟩ (some "PON port 0 not enabled") :=
  (PoweronONU_pon_not_enabled exampleDevices
    (exampleOlt "disabled" [exampleOnu 1 0 "pon_disabled"]) ⟨"BBSM00000001"⟩ ⟨0, 0⟩
    (exampleOnu 1 0 "pon_disabled")
    (examplePon "disabled" [exampleOnu 1 0 "pon_disabled"])
    rfl rfl rfl (by decide)).2.2

/-- C7: for an ONU found by serial number whose parent PON is in `enabled`,
`PoweronONU` sends `initialize` and then `discover` when the ONU is in
`created` and only `discover` otherwise, stopping after the first event that is
rejected; the response has code `OK` (0) and a nil error exactly when no event
was rejected, and otherwise code `FailedPrecondition` (9) with the error of the
rejected event as message and as returned error. -/
theorem PoweronONU_pon_enabled {σ : Type} (D : Devices σ) (olt : OltDevice σ)
    (req : ONURequest) (ref : OnuRef) (onu : Onu σ) (pon : PonPort σ)
    (hfind : D.FindOnuBySn olt req.SerialNumber = .ok ref) (hat : olt.onuAt ref = some onu)
    (hpon : D.GetPonById olt onu.PonPortID = .ok pon) (hstate : pon.InternalState = "enabled") :
    (PoweronONU D olt req).trace =
      (if D.Current onu.InternalState = "created" then
         (if (D.Event onu "initialize").2 = none then
            [Effect.fsmEvent ref "initialize", Effect.fsmEvent ref "discover"]
          else [Effect.fsmEvent ref "initialize"])
       else [Effect.fsmEvent ref "discover"]) ∧
    (PoweronONU D olt req).outcome =
      (if D.Current onu.InternalState = "created" then
         (match (D.Event onu "initialize").2 with
          | some err => .returned ⟨9, err⟩ (some err)
          | none =>
            match (D.Event (D.Event onu "initialize").1 "discover").2 with
            | some err => .returned ⟨9, err⟩ (some err)
            | none =>
              .returned
                ⟨0, "ONU " ++ D.Sn (D.Event (D.Event onu "initialize").1 "discover").1 ++
                      " successfully powered on."⟩ none)
       else
         (match (D.Event onu "discover").2 with
          | some err => .returned ⟨9, err⟩ (some err)
          | none =>
            .returned ⟨0, "ONU " ++ D.Sn (D.Event onu "discover").1 ++ " successfully powered on."⟩
              none)) := by
  unfold PoweronONU Devices.sendEvent
  simp only [hfind, hat, hpon, hstate]
  by_cases hc : D.Current onu.InternalState = "created"
  · cases h1 : (D.Event onu "initialize").2
    · cases h2 : (D.Event (D.Event onu "initialize").1 "discover").2 <;>
        simp [hc, h1, h2, int32_codes]
    · simp [hc, h1, int32_codes]
  · cases h2 : (D.Event onu "discover").2 <;> simp [hc, h2, int32_codes]

/-- Witness of C7: an ONU in `created` on the enabled PON 0 is powered on. -/
theorem PoweronONU_pon_enabled_witness :
    (PoweronONU exampleDevices (exampleOlt "enabled" [exampleOnu 1 0 "created"])
      ⟨"BBSM00000001"⟩).trace =
      [Effect.fsmEvent ⟨0, 0⟩ "initialize", Effect.fsmEvent ⟨0, 0⟩ "discover"] := by
  rw [(PoweronONU_pon_enabled exampleDevices (exampleOlt "enabled" [exampleOnu 1 0 "created"])
    ⟨"BBSM00000001"⟩ ⟨0, 0⟩ (exampleOnu 1 0 "created")
    (examplePon "enabled" [exampleOnu 1 0 "created"]) rfl rfl rfl rfl).1]
  decide

/-- When the ONU is found and its machine rejects the event of the action,
`ChangeIgmpState` has sent that one event and then panics at `err.Error()`:
no response is returned. -/
theorem ChangeIgmpState_rejected_outcome {σ : Type} (D : Devices σ) (olt : OltDevice σ)
    (req : IgmpRequest) (ref : OnuRef) (onu : Onu σ) (igmpErr : String)
    (hfind : D.FindOnuBySn olt req.OnuReq.SerialNumber = .ok ref)
    (hat : olt.onuAt ref = some onu)
    (hrej : (D.Event onu (igmpEvent req.SubActionVal)).2 = some igmpErr) :
    (ChangeIgmpState D olt req).outcome = Outcome.panicked ∧
    (ChangeIgmpState D olt req).trace = [Effect.fsmEvent ref (igmpEvent req.SubActionVal)] := by
  unfold ChangeIgmpState Devices.sendEvent
  simp [hfind, hat, hrej, errorText]

/-- C8 (the code departs from it): the ONU "BBSM00000001" is found, it is in
`created`, and its machine rejects `igmp_join_start` without changing the ONU;
`ChangeIgmpState` with the action `JOIN` then returns no response at all: it
panics, after having sent the event. -/
theorem ChangeIgmpState_rejected_panics :
    exampleDevices.FindOnuBySn (exampleOlt "enabled" [exampleOnu 1 0 "created"]) "BBSM00000001" =
      .ok ⟨0, 0⟩ ∧
    (exampleOlt "enabled" [exampleOnu 1 0 "created"]).onuAt ⟨0, 0⟩ =
      some (exampleOnu 1 0 "created") ∧
    (exampleDevices.Event (exampleOnu 1 0 "created") "igmp_join_start").2 =
      some "event igmp_join_start inappropriate in current state created" ∧
    (exampleDevices.Event (exampleOnu 1 0 "created") "igmp_join_start").1.InternalState =
      "created" ∧
    (ChangeIgmpState exampleDevices (exampleOlt "enabled" [exampleOnu 1 0 "created"])
      ⟨⟨"BBSM00000001"⟩, SubActionTypes.JOIN⟩).trace =
      [Effect.fsmEvent ⟨0, 0⟩ "igmp_join_start"] ∧
    (ChangeIgmpState exampleDevices (exampleOlt "enabled" [exampleOnu 1 0 "created"])
      ⟨⟨"BBSM00000001"⟩, SubActionTypes.JOIN⟩).outcome = Outcome.panicked :=
  ⟨rfl, rfl, by decide, by decide, by decide, rfl⟩

/-- C9: for an ONU found by serial number, `ChangeIgmpState` sends exactly one
event to the ONU's `InternalState`: `igmp_join_start` for `JOIN`, `igmp_leave`
for `LEAVE`, `igmp_join_startv3` for `JOINV3`; when that event is accepted the
response has code `OK` (0) and the returned error is nil. -/
theorem ChangeIgmpState_found {σ : Type} (D : Devices σ) (olt : OltDevice σ)
    (req : IgmpRequest) (ref : OnuRef) (onu : Onu σ)
    (hfind : D.FindOnuBySn olt req.OnuReq.SerialNumber = .ok ref)
    (hat : olt.onuAt ref = some onu) :
    (ChangeIgmpState D olt req).trace = [Effect.fsmEvent ref (igmpEvent req.SubActionVal)] ∧
    igmpEvent SubActionTypes.JOIN = "igmp_join_start" ∧
    igmpEvent SubActionTypes.LEAVE = "igmp_leave" ∧
    igmpEvent SubActionTypes.JOINV3 = "igmp_join_startv3" ∧
    ((D.Event onu (igmpEvent req.SubActionVal)).2 = none →
      (ChangeIgmpState D olt req).outcome = .returned ⟨0, ""⟩ none ∧
      (ChangeIgmpState D olt req).olt =
        olt.setOnu ref (D.Event onu (igmpEvent req.SubActionVal)).1) := by
  refine ⟨?_, rfl, rfl, rfl, ?_⟩
  · unfold ChangeIgmpState Devices.sendEvent
    simp only [hfind, hat]
    cases h : (D.Event onu (igmpEvent req.SubActionVal)).2 <;> simp [h, errorText]
  · intro h
    unfold ChangeIgmpState Devices.sendEvent
    simp [hfind, hat, h]

/-- Witness of C9: the scenario of the spec, `JOINV3` on an ONU in
`dhcp_ack_received`. -/
theorem ChangeIgmpState_found_witness :
    (ChangeIgmpState exampleDevices (exampleOlt "enabled" [exampleOnu 1 0 "dhcp_ack_received"])
      ⟨⟨"BBSM00000001"⟩, SubActionTypes.JOINV3⟩).trace =
      [Effect.fsmEvent ⟨0, 0⟩ "igmp_join_startv3"] ∧
    (ChangeIgmpState exampleDevices (exampleOlt "enabled" [exampleOnu 1 0 "dhcp_ack_received"])
      ⟨⟨"BBSM00000001"⟩, SubActionTypes.JOINV3⟩).outcome = .returned ⟨0, ""⟩ none :=
  ⟨(ChangeIgmpState_found exampleDevices
      (exampleOlt "enabled" [exampleOnu 1 0 "dhcp_ack_received"])
      ⟨⟨"BBSM00000001"⟩, SubActionTypes.JOINV3⟩ ⟨0, 0⟩ (exampleOnu 1 0 "dhcp_ack_received")
      rfl rfl).1,
   ((ChangeIgmpState_found exampleDevices
      (exampleOlt "enabled" [exampleOnu 1 0 "dhcp_ack_received"])
      ⟨⟨"BBSM00000001"⟩, SubActionTypes.JOINV3⟩ ⟨0, 0⟩ (exampleOnu 1 0 "dhcp_ack_received")
      rfl rfl).2.2.2.2 (by decide)).1⟩

/-- C10: for a serial number that `FindOnuBySn` does not find, each of
`ShutdownONU`, `PoweronONU`, `RestartEapol`, `RestartDhcp` and `ChangeIgmpState`
returns a response with code `NotFound` (5) and the text of the lookup error as
message, returns that error, sends no event, puts nothing on a channel and
leaves the OLT as it was; `GetONU` returns the empty snapshot with the error. -/
theorem handlers_not_found {σ : Type} (D : Devices σ) (olt : OltDevice σ) (sn : String)
    (err : String) (action : SubActionTypes)
    (hfind : D.FindOnuBySn olt sn = .error err) :
    (ShutdownONU D olt ⟨sn⟩ = ⟨olt, [], .returned ⟨5, err⟩ (some err)⟩) ∧
    (PoweronONU D olt ⟨sn⟩ = ⟨olt, [], .returned ⟨5, err⟩ (some err)⟩) ∧
    (RestartEapol D olt ⟨sn⟩ = ⟨olt, [], .returned ⟨5, err⟩ (some err)⟩) ∧
    (RestartDhcp D olt ⟨sn⟩ = ⟨olt, [], .returned ⟨5, err⟩ (some err)⟩) ∧
    (ChangeIgmpState D olt ⟨⟨sn⟩, action⟩ = ⟨olt, [], .returned ⟨5, err⟩ (some err)⟩) ∧
    (GetONU D olt ⟨sn⟩ = ⟨olt, [], .returned ⟨0, "", "", "", 0, 0, 0, "", 0⟩ (some err)⟩) := by
  refine ⟨?_, ?_, ?_, ?_, ?_, ?_⟩
  · simp [ShutdownONU, hfind, int32_codes]
  · simp [PoweronONU, hfind, int32_codes]
  · simp [RestartEapol, restartHandler, hfind, int32_codes]
  · simp [RestartDhcp, restartHandler, hfind, int32_codes]
  · simp [ChangeIgmpState, hfind, int32_codes]
  · simp [GetONU, hfind]

/-- Witness of C10: the serial number "UNKNOWN" on the example OLT. -/
theorem handlers_not_found_witness :
    GetONU exampleDevices (exampleOlt "enabled" [exampleOnu 1 0 "enabled"]) ⟨"UNKNOWN"⟩ =
      ⟨exampleOlt "enabled" [exampleOnu 1 0 "enabled"], [],
        .returned ⟨0, "", "", "", 0, 0, 0, "", 0⟩
          (some "cannot-find-onu-by-serial-number-UNKNOWN")⟩ :=
  (handlers_not_found exampleDevices (exampleOlt "enabled" [exampleOnu 1 0 "enabled"]) "UNKNOWN"
    "cannot-find-onu-by-serial-number-UNKNOWN" SubActionTypes.JOIN rfl).2.2.2.2.2

/-! ## The tests of `packet_tags_test.go` on the model -/

/-- The four tests of `packet_tags_test.go` hold of the modelled functions. -/
theorem packet_tags_tests :
    (PushSingleTag 111 testFrame >>= GetVlanTag) = .ok 111 ∧
    (PushDoubleTag 900 800 testFrame >>= GetVlanTag) = .ok 900 ∧
    (PushDoubleTag 900 800 testFrame >>= PopSingleTag >>= GetVlanTag) = .ok 800 ∧
    (PopSingleTag testTaggedFrame >>= GetVlanTag) = .ok 2580 ∧
    (PopDoubleTag testTaggedFrame >>= GetVlanTag) = .error "no-dot1q-layer-in-packet" :=
  ⟨rfl, rfl, rfl, rfl, rfl⟩

/-! ## `RestartEapol` and `RestartDhcp` -/

/-- C11: for an ONU found by serial number, `RestartEapol` sends exactly the
event `start_auth` and `RestartDhcp` exactly the event `start_dhcp` to the
ONU's `InternalState`; each returns code `OK` (0) with a nil error when the
event is accepted, and code `FailedPrecondition` (9) with the machine's error
as message and as returned error when it is rejected. -/
theorem restart_handlers_found {σ : Type} (D : Devices σ) (olt : OltDevice σ) (req : ONURequest)
    (ref : OnuRef) (onu : Onu σ)
    (hfind : D.FindOnuBySn olt req.SerialNumber = .ok ref) (hat : olt.onuAt ref = some onu) :
    (RestartEapol D olt req).trace = [Effect.fsmEvent ref "start_auth"] ∧
    (RestartEapol D olt req).outcome =
      (match (D.Event onu "start_auth").2 with
       | none =>
         .returned
           ⟨0, "Authentication restarted for ONU " ++ D.Sn (D.Event onu "start_auth").1 ++ "."⟩ none
       | some err => .returned ⟨9, err⟩ (some err)) ∧
    (RestartDhcp D olt req).trace = [Effect.fsmEvent ref "start_dhcp"] ∧
    (RestartDhcp D olt req).outcome =
      (match (D.Event onu "start_dhcp").2 with
       | none =>
         .returned ⟨0, "DHCP restarted for ONU " ++ D.Sn (D.Event onu "start_dhcp").1 ++ "."⟩ none
       | some err => .returned ⟨9, err⟩ (some err)) := by
  unfold RestartEapol RestartDhcp restartHandler Devices.sendEvent
  simp only [hfind, hat]
  cases h1 : (D.Event onu "start_auth").2 <;> cases h2 : (D.Event onu "start_dhcp").2 <;>
    simp [h1, h2, int32_codes]

/-- Witness of C11: the ONU "BBSM00000001" in `enabled` accepts `start_auth`
and rejects `start_dhcp`. -/
theorem restart_handlers_found_witness :
    (RestartEapol exampleDevices (exampleOlt "enabled" [exampleOnu 1 0 "enabled"])
      ⟨"BBSM00000001"⟩).outcome =
      .returned ⟨0, "Authentication restarted for ONU BBSM00000001."⟩ none ∧
    (RestartDhcp exampleDevices (exampleOlt "enabled" [exampleOnu 1 0 "enabled"])
      ⟨"BBSM00000001"⟩).outcome =
      .returned ⟨9, "event start_dhcp does not exist"⟩ (some "event start_dhcp does not exist") :=
  ⟨(restart_handlers_found exampleDevices (exampleOlt "enabled" [exampleOnu 1 0 "enabled"])
      ⟨"BBSM00000001"⟩ ⟨0, 0⟩ (exampleOnu 1 0 "enabled") rfl rfl).2.1,
   (restart_handlers_found exampleDevices (exampleOlt "enabled" [exampleOnu 1 0 "enabled"])
      ⟨"BBSM00000001"⟩ ⟨0, 0⟩ (exampleOnu 1 0 "enabled") rfl rfl).2.2.2⟩

/-! ## The PON `OperState` machine -/

/-- C12: the PON `OperState` machine built by `CreatePonPort` starts in `down`;
`enable` from `down` leads to `up` and `disable` from `up` leads to `down`, each
without error and with exactly one call of `sendPonIndication`, for the ID of
this port; every other pair of state and event returns an error, leaves the
port as it was and calls `sendPonIndication` not at all. -/
theorem pon_oper_state_machine {σ : Type} (olt : OltDevice σ) (id : Nat) (pon : PonPort σ)
    (event : String) :
    (CreatePonPort olt id).OperState = "down" ∧
    (if event = "enable" ∧ pon.OperState = "down" then
      (pon.OperStateEvent event).err = none ∧
      (pon.OperStateEvent event).pon = { pon with OperState := "up" } ∧
      (pon.OperStateEvent event).indications = [pon.ID]
    else if event = "disable" ∧ pon.OperState = "up" then
      (pon.OperStateEvent event).err = none ∧
      (pon.OperStateEvent event).pon = { pon with OperState := "down" } ∧
      (pon.OperStateEvent event).indications = [pon.ID]
    else
      (pon.OperStateEvent event).err ≠ none ∧
      (pon.OperStateEvent event).pon = pon ∧
      (pon.OperStateEvent event).indications = []) := by
  refine ⟨rfl, ?_⟩
  by_cases he : event = "enable"
  · subst he
    by_cases h1 : pon.OperState = "down"
    · simp [PonPort.OperStateEvent, fsmTransition, ponOperStateEvents, ponOperStateCallbacks,
        enter_up, h1]
    · simp [PonPort.OperStateEvent, fsmTransition, ponOperStateEvents, h1]
  · by_cases hd : event = "disable"
    · subst hd
      by_cases h2 : pon.OperState = "up"
      · simp [PonPort.OperStateEvent, fsmTransition, ponOperStateEvents, ponOperStateCallbacks,
          enter_down, h2]
      · simp [PonPort.OperStateEvent, fsmTransition, ponOperStateEvents, h2]
    · have he2 : ¬ ("enable" = event) := fun h => he h.symm
      have hd2 : ¬ ("disable" = event) := fun h => hd h.symm
      simp [PonPort.OperStateEvent, fsmTransition, ponOperStateEvents, he, hd, he2, hd2]

/-! ## `GetONUs` -/

/-- The inner loop of `GetONUs` appends the snapshots of the ONUs in list order. -/
theorem getONUsOfPon_eq {σ : Type} (D : Devices σ) (l : List (Onu σ)) :
    ∀ onus : ONUs, getONUsOfPon D l onus = { Items := onus.Items ++ l.map D.snapshot } := by
  induction l with
  | nil => intro onus; simp [getONUsOfPon]
  | cons o rest ih => intro onus; simp [getONUsOfPon, ih]

/-- The outer loop of `GetONUs` appends, PON after PON, the snapshots of the
ONUs of that PON. -/
theorem getONUsOfPons_eq {σ : Type} (D : Devices σ) (pons : List (PonPort σ)) :
    ∀ onus : ONUs, getONUsOfPons D pons onus =
      { Items := onus.Items ++ pons.flatMap (fun pon => pon.Onus.map D.snapshot) } := by
  induction pons with
  | nil => intro onus; simp [getONUsOfPons]
  | cons pon rest ih => intro onus; simp [getONUsOfPons, ih, getONUsOfPon_eq]

/-- C13: `GetONUs` returns with a nil error, sends no event, leaves the OLT as
it was, and its items are, PON after PON and within a PON in list order, one
snapshot per ONU: `ID`, `PonPortID`, `STag`, `CTag` and `PortNo` are the ONU's
values as `int32` (the same number whenever it fits in 32 signed bits),
`SerialNumber` is `Sn()`, `OperState` and `InternalState` are the current state
names, `HwAddress` is the text of the address; the number of items is the sum of
the numbers of ONUs of the PONs. -/
theorem GetONUs_snapshot {σ : Type} (D : Devices σ) (olt : OltDevice σ) :
    GetONUs D olt =
      ⟨olt, [],
        .returned
          ⟨olt.Pons.flatMap (fun pon => pon.Onus.map (fun o =>
            ({ ID := int32 o.ID
               SerialNumber := D.Sn o
               OperState := o.OperState
               InternalState := D.Current o.InternalState
               PonPortID := int32 o.PonPortID
               STag := int32 o.STag
               CTag := int32 o.CTag
               HwAddress := o.HwAddress
               PortNo := int32 o.PortNo } : ONU)))⟩
          none⟩ ∧
    (olt.Pons.flatMap (fun pon => pon.Onus.map D.snapshot)).length =
      (olt.Pons.map (fun pon => pon.Onus.length)).sum ∧
    (∀ x : Int, -2 ^ 31 ≤ x → x < 2 ^ 31 → int32 x = x) := by
  refine ⟨?_, ?_, ?_⟩
  · simp only [GetONUs, getONUsOfPons_eq, List.nil_append]
    rfl
  · induction olt.Pons with
    | nil => simp
    | cons pon rest ih => simp [List.flatMap_cons, ih]
  · intro x h1 h2
    unfold int32
    omega

/-- Witness of C13: the snapshot list of an OLT with one PON and two ONUs. -/
theorem GetONUs_snapshot_witness :
    int32 901 = 901 ∧
    GetONUs exampleDevices (exampleOlt "enabled" [exampleOnu 1 0 "enabled", exampleOnu 2 0 "created"]) =
      ⟨exampleOlt "enabled" [exampleOnu 1 0 "enabled", exampleOnu 2 0 "created"], [],
        .returned
          ⟨[ ⟨1, "BBSM00000001", "down", "enabled", 0, 900, 901, "2e:60:70:13:00:01", 0⟩,
             ⟨2, "BBSM00000001", "down", "created", 0, 900, 902, "2e:60:70:13:00:01", 0⟩ ]⟩
          none⟩ :=
  ⟨(GetONUs_snapshot exampleDevices
      (exampleOlt "enabled" [exampleOnu 1 0 "enabled", exampleOnu 2 0 "created"])).2.2 901
      (by decide) (by decide),
   (GetONUs_snapshot exampleDevices
      (exampleOlt "enabled" [exampleOnu 1 0 "enabled", exampleOnu 2 0 "created"])).1.trans rfl⟩

/-! ## VLAN tags -/

/-- The two bytes of a tag, read back, give the VLAN it was built from. -/
theorem dot1q_vlan_readback (v : Nat) (hv : v < 4096) :
    (v % 4096 / 256 * 256 + v % 256) % 4096 = v := by
  omega

/-- C15: for every Ethernet frame and every VLAN ID `v` in 0..4095,
`PushSingleTag(v, f)` succeeds and `GetVlanTag` of the resulting frame returns
`v` without error. -/
theorem PushSingleTag_then_GetVlanTag (f : Frame) (v : Nat) (hv : v < 4096) :
    ∃ tagged : Frame, PushSingleTag v f = .ok tagged ∧ GetVlanTag tagged = .ok v := by
  refine ⟨_, rfl, ?_⟩
  simp [GetVlanTag, getDot1QLayer, newFrame, padPayload, dot1qBytes, dot1q_vlan_readback v hv]

/-- Witness of C15: scenario 5 of the spec, VLAN 111 on the frame of the tests. -/
theorem PushSingleTag_then_GetVlanTag_witness :
    (111 : Nat) < 4096 ∧
    ∃ tagged : Frame, PushSingleTag 111 testFrame = .ok tagged ∧ GetVlanTag tagged = .ok 111 :=
  ⟨by decide, PushSingleTag_then_GetVlanTag testFrame 111 (by decide)⟩

/-- C14: for every Ethernet frame and every pair of VLAN IDs `s`, `c` in
0..4095, `PushDoubleTag(s, c, f)` succeeds and the frame it returns has
`GetVlanTag` equal to `s`; one `PopSingleTag` of that frame succeeds and the
frame it returns has `GetVlanTag` equal to `c`. -/
theorem PushDoubleTag_then_GetVlanTag (f : Frame) (s c : Nat) (hs : s < 4096) (hc : c < 4096) :
    ∃ tagged popped : Frame,
      PushDoubleTag s c f = .ok tagged ∧ GetVlanTag tagged = .ok s ∧
      PopSingleTag tagged = .ok popped ∧ GetVlanTag popped = .ok c := by
  have hpush : PushDoubleTag s c f =
      .ok (newFrame f.DstMAC f.SrcMAC 0x8100
        (dot1qBytes s 0x8100 ++ padPayload (dot1qBytes c f.EthernetType ++ f.Payload))) := by
    simp [PushDoubleTag, PushSingleTag, newFrame]
  have hpop : PopSingleTag (newFrame f.DstMAC f.SrcMAC 0x8100
        (dot1qBytes s 0x8100 ++ padPayload (dot1qBytes c f.EthernetType ++ f.Payload))) =
      .ok (newFrame f.DstMAC f.SrcMAC 0x8100
        (padPayload (dot1qBytes c f.EthernetType ++ f.Payload) ++
          List.replicate
            (46 - (4 + (padPayload (dot1qBytes c f.EthernetType ++ f.Payload)).length)) 0)) := by
    simp [PopSingleTag, getDot1QLayer, newFrame, padPayload, dot1qBytes]
    omega
  refine ⟨_, _, hpush, ?_, hpop, ?_⟩
  · simp [GetVlanTag, getDot1QLayer, newFrame, padPayload, dot1qBytes, dot1q_vlan_readback s hs]
  · simp [GetVlanTag, getDot1QLayer, newFrame, padPayload, dot1qBytes, dot1q_vlan_readback c hc]

/-- Witness of C14: the tags 900 and 800 of `TestPushDoubleTag`. -/
theorem PushDoubleTag_then_GetVlanTag_witness :
    (900 : Nat) < 4096 ∧ (800 : Nat) < 4096 ∧
    ∃ tagged popped : Frame,
      PushDoubleTag 900 800 testFrame = .ok tagged ∧ GetVlanTag tagged = .ok 900 ∧
      PopSingleTag tagged = .ok popped ∧ GetVlanTag popped = .ok 800 :=
  ⟨by decide, by decide,
    PushDoubleTag_then_GetVlanTag testFrame 900 800 (by decide) (by decide)⟩

/-! ## Queries on a PON port -/

/-- The counting loop never returns more than the start value plus the number
of ONUs it visits. -/
theorem getNumOfActiveOnusLoop_le {σ : Type} (F : OnuFsm σ) (l : List (Onu σ)) :
    ∀ count : Nat, getNumOfActiveOnusLoop F l count ≤ count + l.length := by
  induction l with
  | nil => intro count; simp [getNumOfActiveOnusLoop]
  | cons onu rest ih =>
    intro count
    unfold getNumOfActiveOnusLoop
    split
    · have := ih count
      simp only [List.length_cons]
      omega
    · have := ih ((count + 1) % 2 ^ 32)
      have hmod : (count + 1) % 2 ^ 32 ≤ count + 1 := Nat.mod_le _ _
      simp only [List.length_cons]
      omega

/-- As long as the counter cannot wrap, the counting loop adds to the start
value the number of ONUs whose state is none of the three excluded ones. -/
theorem getNumOfActiveOnusLoop_eq {σ : Type} (F : OnuFsm σ) (l : List (Onu σ)) :
    ∀ count : Nat, count + l.length < 2 ^ 32 →
      getNumOfActiveOnusLoop F l count =
        count + l.countP (fun o =>
          decide (F.Current o.InternalState ≠ "initialized" ∧
                  F.Current o.InternalState ≠ "created" ∧
                  F.Current o.InternalState ≠ "disabled")) := by
  induction l with
  | nil => intro count _; simp [getNumOfActiveOnusLoop]
  | cons onu rest ih =>
    intro count hlen
    simp only [List.length_cons] at hlen
    unfold getNumOfActiveOnusLoop
    split
    · rename_i hidle
      have hrest := ih count (by omega)
      have hnot : ¬ (F.Current onu.InternalState ≠ "initialized" ∧
          F.Current onu.InternalState ≠ "created" ∧
          F.Current onu.InternalState ≠ "disabled") := by
        intro h
        rcases hidle with h1 | h1 | h1
        · exact h.1 h1
        · exact h.2.1 h1
        · exact h.2.2 h1
      rw [hrest, List.countP_cons_of_neg]
      simpa using hnot
    · rename_i hactive
      have hmod : (count + 1) % 2 ^ 32 = count + 1 := Nat.mod_eq_of_lt (by omega)
      have hrest := ih (count + 1) (by omega)
      have hyes : F.Current onu.InternalState ≠ "initialized" ∧
          F.Current onu.InternalState ≠ "created" ∧
          F.Current onu.InternalState ≠ "disabled" := by
        refine ⟨fun h => hactive (Or.inl h), fun h => hactive (Or.inr (Or.inl h)),
          fun h => hactive (Or.inr (Or.inr h))⟩
      rw [hmod, hrest, List.countP_cons_of_pos]
      · omega
      · simpa using hyes

/-- C16: for every PON port (with fewer than 2^32 ONUs, the range of the
`uint32` counter), `GetNumOfActiveOnus` returns exactly the number of its ONUs
whose `InternalState` is none of `initialized`, `created` and `disabled`; the
result never exceeds the number of ONUs of the port.  The function returns a
number only: the port and its ONUs are not changed. -/
theorem GetNumOfActiveOnus_counts {σ : Type} (F : OnuFsm σ) (p : PonPort σ)
    (hlen : p.Onus.length < 2 ^ 32) :
    p.GetNumOfActiveOnus F =
      p.Onus.countP (fun o =>
        decide (F.Current o.InternalState ≠ "initialized" ∧
                F.Current o.InternalState ≠ "created" ∧
                F.Current o.InternalState ≠ "disabled")) ∧
    p.GetNumOfActiveOnus F ≤ p.Onus.length := by
  constructor
  · have h := getNumOfActiveOnusLoop_eq F p.Onus 0 (by omega)
    simpa [PonPort.GetNumOfActiveOnus] using h
  · have h := getNumOfActiveOnusLoop_le F p.Onus 0
    simpa [PonPort.GetNumOfActiveOnus] using h

/-- Witness of C16: of five ONUs in `pon_disabled`, `initialized`, `enabled`,
`created` and `disabled`, the first and the third are counted. -/
theorem GetNumOfActiveOnus_counts_witness :
    (examplePon "disabled"
      [exampleOnu 1 0 "pon_disabled", exampleOnu 2 0 "initialized", exampleOnu 3 0 "enabled",
       exampleOnu 4 0 "created", exampleOnu 5 0 "disabled"]).GetNumOfActiveOnus exampleOnuFsm = 2 := by
  rw [(GetNumOfActiveOnus_counts exampleOnuFsm
    (examplePon "disabled"
      [exampleOnu 1 0 "pon_disabled", exampleOnu 2 0 "initialized", exampleOnu 3 0 "enabled",
       exampleOnu 4 0 "created", exampleOnu 5 0 "disabled"]) (by decide)).1]
  decide

/-- The search loop of `GetOnuBySn`: when it finds nothing, no ONU of the list
has the queried bytes; when it finds the ONU at position `i + k`, that is the
`k`-th ONU of the list, it has the queried bytes, and no earlier one has. -/
theorem getOnuBySnLoop_spec {σ : Type} (sn : SerialNumber) (l : List (Onu σ)) :
    ∀ i : Nat,
      (getOnuBySnLoop sn i l = none →
        ∀ o ∈ l, o.SerialNumber.VendorSpecific ≠ sn.VendorSpecific) ∧
      (∀ j o, getOnuBySnLoop sn i l = some (j, o) →
        i ≤ j ∧ l.get? (j - i) = some o ∧
        o.SerialNumber.VendorSpecific = sn.VendorSpecific ∧
        ∀ m o2, m < j - i → l.get? m = some o2 →
          o2.SerialNumber.VendorSpecific ≠ sn.VendorSpecific) := by
  induction l with
  | nil => intro i; simp [getOnuBySnLoop]
  | cons onu rest ih =>
    intro i
    by_cases hhead : onu.SerialNumber.VendorSpecific = sn.VendorSpecific
    · simp only [getOnuBySnLoop, hhead, if_true]
      refine ⟨by simp, ?_⟩
      intro j o hfound
      simp only [Option.some.injEq, Prod.mk.injEq] at hfound
      obtain ⟨hj, ho⟩ := hfound
      subst hj; subst ho
      simp [hhead]
    · simp only [getOnuBySnLoop, hhead, if_false]
      obtain ⟨ihnone, ihsome⟩ := ih (i + 1)
      refine ⟨?_, ?_⟩
      · intro hnone o ho
        rcases List.mem_cons.mp ho with h | h
        · subst h; exact hhead
        · exact ihnone hnone o h
      · intro j o hfound
        obtain ⟨hle, hget, hvs, hfirst⟩ := ihsome j o hfound
        have hji : j - i = (j - (i + 1)) + 1 := by omega
        refine ⟨by omega, ?_, hvs, ?_⟩
        · rw [hji]; simpa using hget
        · intro m o2 hm hm2
          cases m with
          | zero =>
            simp only [List.get?_cons_zero, Option.some.injEq] at hm2
            subst hm2; exact hhead
          | succ m =>
            simp only [List.get?_cons_succ] at hm2
            exact hfirst m o2 (by omega) hm2

/-- C17: for every PON port and every queried serial number, `GetOnuBySn`
returns the first ONU in list order whose `VendorSpecific` bytes equal those of
the query; it returns an error exactly when no ONU of the port has those bytes;
the `VendorId` of the query and of the ONUs plays no part: the same ONU is
returned whatever the `VendorId` of the query. -/
theorem GetOnuBySn_first_match {σ : Type} (render : SerialNumber → String) (p : PonPort σ)
    (sn : SerialNumber) :
    (∀ j o, p.GetOnuBySn render sn = .ok (j, o) →
      p.Onus.get? j = some o ∧
      o.SerialNumber.VendorSpecific = sn.VendorSpecific ∧
      ∀ m o2, m < j → p.Onus.get? m = some o2 →
        o2.SerialNumber.VendorSpecific ≠ sn.VendorSpecific) ∧
    ((∃ err, p.GetOnuBySn render sn = .error err) ↔
      ∀ o ∈ p.Onus, o.SerialNumber.VendorSpecific ≠ sn.VendorSpecific) ∧
    (∀ vendorId : List Nat,
      (p.GetOnuBySn render ⟨vendorId, sn.VendorSpecific⟩).toOption =
        (p.GetOnuBySn render sn).toOption) := by
  obtain ⟨hnone, hsome⟩ := getOnuBySnLoop_spec sn p.Onus 0
  refine ⟨?_, ?_, ?_⟩
  · intro j o hok
    unfold PonPort.GetOnuBySn at hok
    cases hloop : getOnuBySnLoop sn 0 p.Onus with
    | none => simp [hloop] at hok
    | some found =>
      simp only [hloop, Except.ok.injEq] at hok
      subst hok
      obtain ⟨_, hget, hvs, hfirst⟩ := hsome j o hloop
      exact ⟨by simpa using hget, hvs, fun m o2 hm => hfirst m o2 (by simpa using hm)⟩
  · unfold PonPort.GetOnuBySn
    cases hloop : getOnuBySnLoop sn 0 p.Onus with
    | none =>
      exact ⟨fun _ => hnone hloop, fun _ => ⟨_, rfl⟩⟩
    | some found =>
      obtain ⟨j, o⟩ := found
      obtain ⟨_, hget, hvs, _⟩ := hsome j o hloop
      constructor
      · rintro ⟨err, herr⟩
        cases herr
      · intro hall
        exact absurd hvs (hall o (List.get?_mem hget))
  · intro vendorId
    have hsame : ∀ (l : List (Onu σ)) (i : Nat),
        getOnuBySnLoop (⟨vendorId, sn.VendorSpecific⟩ : SerialNumber) i l =
          getOnuBySnLoop sn i l := by
      intro l
      induction l with
      | nil => intro i; rfl
      | cons onu rest ih => intro i; simp [getOnuBySnLoop, ih]
    unfold PonPort.GetOnuBySn
    rw [hsame]
    cases getOnuBySnLoop sn 0 p.Onus <;> rfl

/-- Witness of C17: a query with another `VendorId` and the `VendorSpecific`
bytes of the second ONU returns the second ONU; a query with bytes that no ONU
has returns an error. -/
theorem GetOnuBySn_first_match_witness :
    (examplePon "enabled" [exampleOnu 1 0 "enabled", exampleOnu 2 0 "enabled"]).GetOnuBySn
        (fun _ => "") ⟨[1, 2, 3, 4], [0, 0, 0, 2]⟩ = .ok (1, exampleOnu 2 0 "enabled") ∧
    (examplePon "enabled" [exampleOnu 1 0 "enabled", exampleOnu 2 0 "enabled"]).Onus.get? 1 =
        some (exampleOnu 2 0 "enabled") :=
  ⟨rfl,
   ((GetOnuBySn_first_match (fun _ => "")
      (examplePon "enabled" [exampleOnu 1 0 "enabled", exampleOnu 2 0 "enabled"])
      ⟨[1, 2, 3, 4], [0, 0, 0, 2]⟩).1 1 (exampleOnu 2 0 "enabled") rfl).1⟩

end BBSim
